import Mathlib

/-!
Verification of the blackrock storage journal layer
(src/blackrock/storage/journal-layer.c++).

The development shallowly embeds the parts of the implementation that the
claims are about:

* the journal record model and the recovery replay walk
  (`JournalLayer::Recovery::commitSavedTransaction`, lines 591-622),
* per-entry replay (`JournalLayer::Recovery::replayEntry`, lines 639-719),
* the transaction commit entry assembly
  (`JournalLayer::Transaction::commit`, lines 396-477, together with
  `LockedObject::getJournalEntry` / `LockedTemporary::getJournalEntry`),
* the in-memory commit point (`Object::update`, `LockedObject::commit`),
* the handle locking protocol (`LockedObject` constructor/destructor), and
* the recovery API guards (`Recovery::getObject` / `recoverTemporaries` /
  `commitSavedTransaction` / `finish`).

Identifier payloads (`ObjectId`, `Xattr`, `TemporaryXattr`, blob contents)
are fixed-size byte records that this layer treats as uninterpreted data;
they are modeled as `Nat`.  `tx_size` is a `u32` in the record layout
(journal-layer.h is not part of the sources; the layout is modeled from the
spec, section 6.1, which gives `tx_size: u32`); the recovery walk in the
.c++ file itself uses `uint32_t expectedTxSize`, so the u32 wraparound of
`entry.txSize - 1` is modeled explicitly by `pred32`.
-/

/-- JournalEntry::Type (journal-layer.h; the set of values is visible in the
switch statements of journal-layer.c++, lines 643-716). -/
inductive EntryType where
  | createObject
  | updateObject
  | updateXattr
  | deleteObject
  | createTemporary
  | updateTemporary
  | updateTemporaryXattr
  | deleteTemporary
  deriving DecidableEq

/-- RecoveryId: a (RecoveryType, u64) pair addressing a recoverable
temporary.  The recovery-type component is modeled as a Nat code. -/
structure RecoveryId where
  rtype : Nat
  rid : Nat
  deriving DecidableEq

/-- One fixed-size journal record.  The C++ record is a tagged union
discriminated by `type`; both arms are modeled as always-present fields
(the memset in `getJournalEntry` zeroes the whole record, so the unused
arm is all zeroes). -/
structure JournalEntry where
  type : EntryType
  txSize : Nat
  stagingId : Nat
  objectId : Nat
  objectXattr : Nat
  temporaryId : RecoveryId
  temporaryXattr : Nat
  deriving DecidableEq

/-- An all-zero journal record, as produced by a hole punch or a torn
write that left zeroed bytes. -/
def zeroEntry : JournalEntry :=
  { type := .createObject, txSize := 0, stagingId := 0, objectId := 0,
    objectXattr := 0, temporaryId := ⟨0, 0⟩, temporaryXattr := 0 }

/-- u32 computation `entry.txSize - 1` as performed by
`uint32_t expectedTxSize = entry.txSize - 1;` (journal-layer.c++:612):
subtraction of 1 modulo 2^32. -/
def pred32 (n : Nat) : Nat := (n + 4294967295) % 4294967296

/-- The recovery walk of `commitSavedTransaction` (journal-layer.c++:601-621),
abstracted to return the list of entries passed to `replayEntry`, in order.
`expected` is `expectedTxSize`; `pending` is the window
`[txnStart, current)` accumulated since the last completed transaction.
A mismatch with a positive expectation halts the walk (the `break`), and a
pending window never flushed (a torn tail) is discarded. -/
def replayWalk : Nat → List JournalEntry → List JournalEntry → List JournalEntry
  | _, _, [] => []
  | expected, pending, e :: rest =>
    if 0 < expected ∧ e.txSize ≠ expected then []
    else if pred32 e.txSize = 0 then
      (pending ++ [e]) ++ replayWalk 0 [] rest
    else
      replayWalk (pred32 e.txSize) (pending ++ [e]) rest

/-- The entries a journal replays, in order (the walk started with
`expectedTxSize = 0` and `txnStart = entries.begin()`). -/
def replayedEntries (es : List JournalEntry) : List JournalEntry :=
  replayWalk 0 [] es

/-- The txSize fields of `s` are `n, n-1, n-2, ...` in order. -/
def descFromAt (n : Nat) (s : List JournalEntry) : Prop :=
  s.map (fun e => e.txSize) = (List.range s.length).map (fun k => n - k)

instance (n : Nat) (s : List JournalEntry) : Decidable (descFromAt n s) := by
  unfold descFromAt; infer_instance

/-- A complete transaction record: a nonempty run of entries whose txSize
fields count down from the run length to 1 (spec invariant J-1). -/
def completeTxn (t : List JournalEntry) : Prop :=
  t ≠ [] ∧ t.length < 4294967296 ∧ descFromAt t.length t

instance (t : List JournalEntry) : Decidable (completeTxn t) := by
  unfold completeTxn; infer_instance

/-- A torn (incomplete) tail: a descending run that never reaches
txSize = 1 because the journal ends first. -/
def TornTail (s : List JournalEntry) : Prop :=
  ∃ n, n < 4294967296 ∧ s.length < n ∧ descFromAt n s

/-- A tail consisting of a nonempty descending run, then an entry that
breaks the expected descending sequence, then anything at all. -/
def BrokenTail (s : List JournalEntry) : Prop :=
  ∃ n c b rest, s = c ++ b :: rest ∧ c ≠ [] ∧ n < 4294967296 ∧
    c.length < n ∧ descFromAt n c ∧ b.txSize ≠ n - c.length

/-- Journal tails that recovery must discard: all-zero entries (hole-punched
or torn-write regions), a torn descending run, or a run cut by a break. -/
def GarbageSuffix (s : List JournalEntry) : Prop :=
  (∀ e ∈ s, e.txSize = 0) ∨ TornTail s ∨ BrokenTail s

/-- State of a `JournalLayer::Transaction::LockedObject`
(journal-layer.c++:79-217): the per-Locked snapshot flags and pending
values, together with the wrapped object's id and cached xattr (the values
`object->id` and `object->getXattr()` read while building the entry).
`newContent` holds the blob-layer temporary with pending staged content. -/
structure LockedObj where
  created : Bool
  removed : Bool
  changeCount : Nat
  newXattr : Option Nat
  newContent : Option Nat
  objId : Nat
  objXattr : Nat
  deriving DecidableEq

/-- The no-op test `changeCount == 0 || (created && removed)` used by both
`getJournalEntry` (line 108) and `commit` (line 144). -/
def LockedObj.isNoop (l : LockedObj) : Bool :=
  l.changeCount == 0 || (l.created && l.removed)

/-- LockedObject::getXattr (journal-layer.c++:179-185): the pending xattr
override if any, else the wrapped object's cached xattr. -/
def LockedObj.getXattr (l : LockedObj) : Nat :=
  l.newXattr.getD l.objXattr

/-- LockedObject::getJournalEntry (journal-layer.c++:104-132).  The record
is memset to zero, so every field not assigned stays 0; in particular
`txSize` is never assigned anywhere in the commit path.  `stagingId` is
assigned only when there is pending new content. -/
def LockedObj.getJournalEntry (l : LockedObj) (sid : Nat) : Option JournalEntry :=
  if l.isNoop then none
  else some {
    type := if l.created then .createObject
            else if l.removed then .deleteObject
            else if l.newContent.isNone then .updateXattr
            else .updateObject,
    txSize := 0,
    stagingId := if l.newContent.isSome then sid else 0,
    objectId := l.objId,
    objectXattr := l.getXattr,
    temporaryId := ⟨0, 0⟩,
    temporaryXattr := 0 }

/-- The staging id stamped onto the pending content by the
`setRecoveryId(RecoveryId(STAGING, stagingId))` call inside
getJournalEntry (journal-layer.c++:113-116): performed only when the
Locked is not a no-op and has pending new content. -/
def LockedObj.stamp (l : LockedObj) (sid : Nat) : Option Nat :=
  if l.isNoop then none
  else if l.newContent.isSome then some sid else none

/-- State of a `JournalLayer::Transaction::LockedTemporary`
(journal-layer.c++:219-361), shaped like `LockedObj` but wrapping a
RecoverableTemporary addressed by a RecoveryId. -/
structure LockedTemp where
  created : Bool
  removed : Bool
  changeCount : Nat
  newXattr : Option Nat
  newContent : Option Nat
  tempId : RecoveryId
  tempXattr : Nat
  deriving DecidableEq

/-- The no-op test of LockedTemporary (journal-layer.c++:252, 288). -/
def LockedTemp.isNoop (l : LockedTemp) : Bool :=
  l.changeCount == 0 || (l.created && l.removed)

/-- LockedTemporary::getXattr (journal-layer.c++:332-338). -/
def LockedTemp.getXattr (l : LockedTemp) : Nat :=
  l.newXattr.getD l.tempXattr

/-- LockedTemporary::getJournalEntry (journal-layer.c++:248-276). -/
def LockedTemp.getJournalEntry (l : LockedTemp) (sid : Nat) : Option JournalEntry :=
  if l.isNoop then none
  else some {
    type := if l.created then .createTemporary
            else if l.removed then .deleteTemporary
            else if l.newContent.isNone then .updateTemporaryXattr
            else .updateTemporary,
    txSize := 0,
    stagingId := if l.newContent.isSome then sid else 0,
    objectId := 0,
    objectXattr := 0,
    temporaryId := l.tempId,
    temporaryXattr := l.getXattr }

/-- The staging id stamped by LockedTemporary::getJournalEntry
(journal-layer.c++:257-260). -/
def LockedTemp.stamp (l : LockedTemp) (sid : Nat) : Option Nat :=
  if l.isNoop then none
  else if l.newContent.isSome then some sid else none

/-- One element of the sequence a commit iterates over: the `objects`
vector first, then the `temporaries` vector (journal-layer.c++:412-423). -/
inductive AnyLocked where
  | obj : LockedObj → AnyLocked
  | temp : LockedTemp → AnyLocked
  deriving DecidableEq

def AnyLocked.isNoop : AnyLocked → Bool
  | .obj l => l.isNoop
  | .temp l => l.isNoop

def AnyLocked.hasContent : AnyLocked → Bool
  | .obj l => l.newContent.isSome
  | .temp l => l.newContent.isSome

def AnyLocked.entry : AnyLocked → Nat → Option JournalEntry
  | .obj l, sid => l.getJournalEntry sid
  | .temp l, sid => l.getJournalEntry sid

def AnyLocked.stamp : AnyLocked → Nat → Option Nat
  | .obj l, sid => l.stamp sid
  | .temp l, sid => l.stamp sid

/-- Result of the entry-building loops of Transaction::commit. -/
structure BuildResult where
  entries : List JournalEntry
  stamps : List Nat
  counter : Nat
  deriving DecidableEq

/-- The entry-building loops of Transaction::commit
(journal-layer.c++:411-423): for each Locked, in order,
`getJournalEntry(journal.stagingIdCounter++)` is called — the counter is
post-incremented for every Locked, whether or not an entry or a stamp is
produced — and the produced entries are appended in order.  `stamps`
collects the staging ids actually stamped onto pending content, in order;
`counter` is the final value of `stagingIdCounter`. -/
def buildEntries : List AnyLocked → Nat → BuildResult
  | [], c => ⟨[], [], c⟩
  | l :: ls, c =>
    let r := buildEntries ls (c + 1)
    ⟨(l.entry c).toList ++ r.entries, (l.stamp c).toList ++ r.stamps, r.counter⟩

/-- In-memory state of a `JournalLayer::Object` handle as readers see it:
cached xattr, cached content (present once some transaction supplied one),
generation counter and the lock flag. -/
structure ObjState where
  xattr : Nat
  content : Option Nat
  generation : Nat
  locked : Bool
  deriving DecidableEq

/-- Object::update (journal-layer.c++:35-46): advance the generation by
changeCount, replace the cached xattr, and replace the cached content only
when a new one is supplied. -/
def ObjState.update (o : ObjState) (newXattr : Nat) (newContent : Option Nat)
    (changeCount : Nat) : ObjState :=
  { o with
    generation := o.generation + changeCount,
    xattr := newXattr,
    content := match newContent with
               | some cc => some cc
               | none => o.content }

/-- The `object->update(...)` call performed by LockedObject::commit
(journal-layer.c++:134-148) on the wrapped handle: skipped entirely for a
no-op Locked (the early return at line 144). -/
def LockedObj.commitUpdate (l : LockedObj) (o : ObjState) : ObjState :=
  if l.isNoop then o
  else o.update (l.newXattr.getD o.xattr) l.newContent l.changeCount

/-- In-memory state of a `JournalLayer::RecoverableTemporary` handle. -/
structure TempState where
  xattr : Nat
  content : Option Nat
  generation : Nat
  locked : Bool
  deriving DecidableEq

/-- RecoverableTemporary::update (journal-layer.c++:64-75). -/
def TempState.update (s : TempState) (newXattr : Nat) (newContent : Option Nat)
    (changeCount : Nat) : TempState :=
  { s with
    generation := s.generation + changeCount,
    xattr := newXattr,
    content := match newContent with
               | some cc => some cc
               | none => s.content }

/-- The `object->update(...)` call performed by LockedTemporary::commit
(journal-layer.c++:278-292): skipped for a no-op Locked (line 288). -/
def LockedTemp.commitUpdate (l : LockedTemp) (s : TempState) : TempState :=
  if l.isNoop then s
  else s.update (l.newXattr.getD s.xattr) l.newContent l.changeCount

/-- The single blob-layer operation performed by the callback that
LockedObject::commit returns (journal-layer.c++:150-170), or by the one
LockedTemporary::commit returns (journal-layer.c++:294-315). -/
inductive ApplyStep where
  | createObject (id xattr content : Nat)
  | removeObject (id : Nat)
  | overwriteObject (id xattr content : Nat)
  | setObjectXattr (id xattr : Nat)
  | keepTemporary (id : RecoveryId) (xattr content : Nat)
  | releaseTemporary
  | overwriteTemporary (id : RecoveryId) (xattr content : Nat)
  | setTemporaryXattr (id : RecoveryId) (xattr : Nat)
  deriving DecidableEq

/-- The apply-phase work of a LockedObject (journal-layer.c++:144-170): a
no-op Locked returns the empty callback, which performs no blob-layer
operation at all (`return [](BlobLayer&) \x7b\x7d`, line 144). -/
def LockedObj.applyStep (l : LockedObj) : Option ApplyStep :=
  if l.isNoop then none
  else if l.created then some (.createObject l.objId l.getXattr (l.newContent.getD 0))
  else if l.removed then some (.removeObject l.objId)
  else match l.newContent with
       | some cc => some (.overwriteObject l.objId l.getXattr cc)
       | none => some (.setObjectXattr l.objId l.getXattr)

/-- The apply-phase work of a LockedTemporary (journal-layer.c++:288-315).
The `removed` callback deliberately performs no blob operation (it only
releases the reference, lines 302-305). -/
def LockedTemp.applyStep (l : LockedTemp) : Option ApplyStep :=
  if l.isNoop then none
  else if l.created then some (.keepTemporary l.tempId l.getXattr (l.newContent.getD 0))
  else if l.removed then some .releaseTemporary
  else match l.newContent with
       | some cc => some (.overwriteTemporary l.tempId l.getXattr cc)
       | none => some (.setTemporaryXattr l.tempId l.getXattr)

/-- Whether an Except value is a success. -/
def exceptOk {ε α : Type} : Except ε α → Bool
  | .ok _ => true
  | .error _ => false

/-- The LockedObject constructor (journal-layer.c++:82-98): if the handle
is already locked, throw the conflict exception before touching it;
otherwise set `locked = true`.  Returns the (possibly updated) handle state
together with success or the thrown error. -/
def ObjState.lockAttempt (o : ObjState) : ObjState × Except String Unit :=
  if o.locked then (o, .error "transaction aborted due to conflict")
  else ({ o with locked := true }, .ok ())

/-- The LockedObject destructor (journal-layer.c++:100-102). -/
def ObjState.unlock (o : ObjState) : ObjState := { o with locked := false }

/-- The LockedTemporary constructor (journal-layer.c++:222-237). -/
def TempState.lockAttempt (s : TempState) : TempState × Except String Unit :=
  if s.locked then (s, .error "transaction aborted due to conflict")
  else ({ s with locked := true }, .ok ())

/-- The LockedTemporary destructor (journal-layer.c++:239-241). -/
def TempState.unlock (s : TempState) : TempState := { s with locked := false }

/-- Pointwise update of a function-backed map (std::map insert/erase). -/
def mset {α β : Type} [DecidableEq α] (m : α → Option β) (k : α)
    (v : Option β) : α → Option β :=
  fun i => if i = k then v else m i

/-- The recovery-time state that `replayEntry` reads and writes:
`recoveredStaging` (staging id to staged content), `recoveredTemporaries`
(RecoveryId to xattr and content of a RecoveredTemporary), and the blob
layer's objects (ObjectId to xattr and content) as touched through
`blobLayer.getObject` / `keepAs`. -/
structure RecoveryMaps where
  recoveredStaging : Nat → Option Nat
  recoveredTemporaries : RecoveryId → Option (Nat × Nat)
  blobObjects : Nat → Option (Nat × Nat)

/-- JournalLayer::Recovery::replayEntry (journal-layer.c++:639-719).
The first switch consumes the staging temporary for the four staged entry
types, returning early (no effect) when it is absent; the second switch
performs the operation. `keepAs(id, xattr)` installs the staged content as
the blob object `id`, replacing whatever was there. -/
def replayEntry (st : RecoveryMaps) (e : JournalEntry) : RecoveryMaps :=
  match e.type with
  | .createObject =>
    match st.recoveredStaging e.stagingId with
    | none => st
    | some s =>
      { st with
        recoveredStaging := mset st.recoveredStaging e.stagingId none,
        blobObjects := mset st.blobObjects e.objectId (some (e.objectXattr, s)) }
  | .updateObject =>
    match st.recoveredStaging e.stagingId with
    | none => st
    | some s =>
      { st with
        recoveredStaging := mset st.recoveredStaging e.stagingId none,
        blobObjects := mset st.blobObjects e.objectId (some (e.objectXattr, s)) }
  | .updateXattr =>
    match st.blobObjects e.objectId with
    | none => st
    | some (_, c) =>
      { st with blobObjects := mset st.blobObjects e.objectId (some (e.objectXattr, c)) }
  | .deleteObject =>
    match st.blobObjects e.objectId with
    | none => st
    | some _ =>
      { st with blobObjects := mset st.blobObjects e.objectId none }
  | .createTemporary =>
    match st.recoveredStaging e.stagingId with
    | none => st
    | some s =>
      match st.recoveredTemporaries e.temporaryId with
      | none =>
        { st with
          recoveredStaging := mset st.recoveredStaging e.stagingId none,
          recoveredTemporaries := mset st.recoveredTemporaries e.temporaryId
            (some (e.temporaryXattr, s)) }
      | some _ =>
        { st with recoveredStaging := mset st.recoveredStaging e.stagingId none }
  | .updateTemporary =>
    match st.recoveredStaging e.stagingId with
    | none => st
    | some s =>
      match st.recoveredTemporaries e.temporaryId with
      | none =>
        { st with recoveredStaging := mset st.recoveredStaging e.stagingId none }
      | some _ =>
        { st with
          recoveredStaging := mset st.recoveredStaging e.stagingId none,
          recoveredTemporaries := mset st.recoveredTemporaries e.temporaryId
            (some (e.temporaryXattr, s)) }
  | .updateTemporaryXattr =>
    match st.recoveredTemporaries e.temporaryId with
    | none => st
    | some (_, c) =>
      { st with
        recoveredTemporaries := mset st.recoveredTemporaries e.temporaryId
          (some (e.temporaryXattr, c)) }
  | .deleteTemporary =>
    { st with recoveredTemporaries := mset st.recoveredTemporaries e.temporaryId none }

/-- Full replay of a journal as performed by commitSavedTransaction: the
walk selects the entries of complete transactions and each is applied with
`replayEntry`, in order. -/
def replayJournal (st : RecoveryMaps) (es : List JournalEntry) : RecoveryMaps :=
  (replayedEntries es).foldl replayEntry st

/-- JournalLayer::Recovery as seen through its public operations: the
recovery maps plus the `finished` flag set by `finish()`
(journal-layer.c++:533-637). -/
structure RecoveryLayer where
  maps : RecoveryMaps
  finished : Bool

/-- Recovery::getObject (journal-layer.c++:558-570): guarded by
`KJ_REQUIRE(!finished)`.  The in-process openObjects cache affects only
handle identity, not the lookup result, and is not modeled. -/
def RecoveryLayer.getObject (r : RecoveryLayer) (id : Nat) :
    Except String (Option (Nat × Nat)) :=
  if r.finished then .error "already called finish()"
  else .ok (r.maps.blobObjects id)

/-- Recovery::recoverTemporaries (journal-layer.c++:572-589): guarded by
`KJ_REQUIRE(!finished)`; drains every recovered temporary whose recovery
type equals `ty`.  The returned array is the drained range; the model
keeps the state effect. -/
def RecoveryLayer.recoverTemporaries (r : RecoveryLayer) (ty : Nat) :
    Except String RecoveryLayer :=
  if r.finished then .error "already called finish()"
  else .ok { r with maps := { r.maps with
    recoveredTemporaries := fun i =>
      if i.rtype = ty then none else r.maps.recoveredTemporaries i } }

/-- Recovery::commitSavedTransaction (journal-layer.c++:591-622): guarded
by `KJ_REQUIRE(!finished)`; replays the journal contents. -/
def RecoveryLayer.commitSavedTransaction (r : RecoveryLayer)
    (es : List JournalEntry) : Except String RecoveryLayer :=
  if r.finished then .error "already called finish()"
  else .ok { r with maps := replayJournal r.maps es }

/-- Recovery::finish (journal-layer.c++:624-637): guarded by
`KJ_REQUIRE(!finished)`; sets `finished`, clears `recoveredStaging` and
`recoveredTemporaries`, and hands over to the running journal. -/
def RecoveryLayer.finish (r : RecoveryLayer) : Except String RecoveryLayer :=
  if r.finished then .error "already called finish()"
  else .ok
    { maps := { recoveredStaging := fun _ => none,
                recoveredTemporaries := fun _ => none,
                blobObjects := r.maps.blobObjects },
      finished := true }

/-- The decision table for object entry types as the spec states it
(claim C5): keyed on the final flags — created and not removed gives
CreateObject; not created and removed gives DeleteObject regardless of
pending content; otherwise UpdateObject with content, UpdateXattr
without.  Stated from the spec to be compared with the code's
getJournalEntry. -/
def claimedObjectType (created removed hasContent : Bool) : EntryType :=
  if created && !removed then .createObject
  else if !created && removed then .deleteObject
  else if hasContent then .updateObject
  else .updateXattr

/-- The decision table for temporary entry types as the spec states it
(claim C5). -/
def claimedTemporaryType (created removed hasContent : Bool) : EntryType :=
  if created && !removed then .createTemporary
  else if !created && removed then .deleteTemporary
  else if hasContent then .updateTemporary
  else .updateTemporaryXattr

/-- A one-entry transaction: UpdateXattr on object 3, txSize 1. -/
def eA1 : JournalEntry :=
  { type := .updateXattr, txSize := 1, stagingId := 0, objectId := 3,
    objectXattr := 6, temporaryId := ⟨0, 0⟩, temporaryXattr := 0 }

/-- First entry of a two-entry transaction: DeleteObject on object 4, txSize 2. -/
def eB2 : JournalEntry :=
  { type := .deleteObject, txSize := 2, stagingId := 0, objectId := 4,
    objectXattr := 0, temporaryId := ⟨0, 0⟩, temporaryXattr := 0 }

/-- Second entry of a two-entry transaction: UpdateXattr on object 5, txSize 1. -/
def eB1 : JournalEntry :=
  { type := .updateXattr, txSize := 1, stagingId := 0, objectId := 5,
    objectXattr := 7, temporaryId := ⟨0, 0⟩, temporaryXattr := 0 }

/-- A well-formed single-entry transaction: CreateObject of object 1 from
staging id 0, txSize 1. -/
def eC1 : JournalEntry :=
  { type := .createObject, txSize := 1, stagingId := 0, objectId := 1,
    objectXattr := 5, temporaryId := ⟨0, 0⟩, temporaryXattr := 0 }

/-- A LockedObject that wraps an existing object and had setXattr called
once: non-no-op, no pending content. -/
def lSetXattrOnly : LockedObj :=
  { created := false, removed := false, changeCount := 1, newXattr := some 7,
    newContent := none, objId := 1, objXattr := 3 }

/-- A LockedObject that wraps an existing object and had overwrite called
once: non-no-op, pending content present. -/
def lOverwrite : LockedObj :=
  { created := false, removed := false, changeCount := 1, newXattr := some 8,
    newContent := some 9, objId := 2, objXattr := 4 }

/-- Scenario S2: overwrite then remove on an existing object
(changeCount 2, removed, pending content still present). -/
def lOverwriteRemove : LockedObj :=
  { created := false, removed := true, changeCount := 2, newXattr := some 11,
    newContent := some 12, objId := 2, objXattr := 1 }

/-- A created-then-removed LockedObject with one mutation: a no-op with
positive changeCount. -/
def lCreateRemove : LockedObj :=
  { created := true, removed := true, changeCount := 1, newXattr := none,
    newContent := some 9, objId := 1, objXattr := 0 }

/-- A LockedObject with no mutations at all (changeCount 0). -/
def lNoChange : LockedObj :=
  { created := false, removed := false, changeCount := 0, newXattr := none,
    newContent := none, objId := 1, objXattr := 2 }

/-- A LockedTemporary consuming an existing temporary (remove() called once,
as Transaction::commit does for tempToConsume). -/
def tConsume : LockedTemp :=
  { created := false, removed := true, changeCount := 1, newXattr := none,
    newContent := none, tempId := ⟨3, 7⟩, tempXattr := 9 }

/-- A created-then-removed LockedTemporary: a no-op with positive
changeCount. -/
def tCreateRemove : LockedTemp :=
  { created := true, removed := true, changeCount := 1, newXattr := none,
    newContent := some 3, tempId := ⟨1, 1⟩, tempXattr := 0 }

/-- A commit sequence holding one non-no-op LockedObject. -/
def demoLs : List AnyLocked := [.obj lSetXattrOnly]

/-- An object handle with generation 5. -/
def oDemo : ObjState :=
  { xattr := 3, content := none, generation := 5, locked := true }

/-- An unlocked object handle with generation 10. -/
def oDemo2 : ObjState :=
  { xattr := 1, content := none, generation := 10, locked := false }

/-- An unlocked temporary handle. -/
def tsDemo : TempState :=
  { xattr := 2, content := none, generation := 4, locked := false }

/-- A handle already locked into a transaction. -/
def oLockedW : ObjState :=
  { xattr := 0, content := none, generation := 0, locked := true }

/-- An unlocked temporary handle for the lock-protocol witness. -/
def tUnlockedW : TempState :=
  { xattr := 0, content := none, generation := 0, locked := false }

/-- A recovery state holding staging temporary 0 (content 77) and blob
object 5 with xattr 1 and content 2. -/
def st6 : RecoveryMaps :=
  { recoveredStaging := mset (fun _ => none) 0 (some 77),
    recoveredTemporaries := fun _ => none,
    blobObjects := mset (fun _ => none) 5 (some (1, 2)) }

/-- A two-entry transaction that deletes blob object 5 and then recreates
it from staging temporary 0 (txSize 2, 1). -/
def j6 : List JournalEntry :=
  [{ type := .deleteObject, txSize := 2, stagingId := 0, objectId := 5,
     objectXattr := 0, temporaryId := ⟨0, 0⟩, temporaryXattr := 0 },
   { type := .createObject, txSize := 1, stagingId := 0, objectId := 5,
     objectXattr := 4, temporaryId := ⟨0, 0⟩, temporaryXattr := 0 }]

/-- A freshly constructed recovery layer with empty maps. -/
def rStart : RecoveryLayer :=
  { maps := { recoveredStaging := fun _ => none,
              recoveredTemporaries := fun _ => none,
              blobObjects := fun _ => none },
    finished := false }

/-- The recovery layer after `finish()` has run on `rStart`. -/
def rDone : RecoveryLayer :=
  { maps := { recoveredStaging := fun _ => none,
              recoveredTemporaries := fun _ => none,
              blobObjects := rStart.maps.blobObjects },
    finished := true }

theorem pred32_of_pos {n : Nat} (h1 : 0 < n) (h2 : n < 4294967296) :
    pred32 n = n - 1 := by
  unfold pred32
  have h3 : n + 4294967295 = (n - 1) + 1 * 4294967296 := by omega
  rw [h3, Nat.add_mul_mod_self_right]
  exact Nat.mod_eq_of_lt (by omega)

theorem pred32_zero : pred32 0 = 4294967295 := rfl

theorem descFromAt_cons {n : Nat} {e : JournalEntry} {c : List JournalEntry} :
    descFromAt n (e :: c) ↔ e.txSize = n ∧ descFromAt (n - 1) c := by
  unfold descFromAt
  rw [List.length_cons, List.range_succ_eq_map, List.map_cons, List.map_cons,
    List.map_map]
  have hmap : (List.range c.length).map ((fun k => n - k) ∘ Nat.succ)
      = (List.range c.length).map (fun k => n - 1 - k) := by
    refine List.map_congr_left (fun a _ => ?_)
    simp only [Function.comp_apply, Nat.succ_eq_add_one]
    omega
  rw [hmap]
  simp

theorem walk_complete_chain :
    ∀ (c : List JournalEntry) (j : Nat) (pending rest : List JournalEntry),
      0 < j → j < 4294967296 → c.length = j → descFromAt j c →
      replayWalk j pending (c ++ rest) = (pending ++ c) ++ replayWalk 0 [] rest := by
  intro c
  induction c with
  | nil =>
    intro j pending rest hj _ hlen _
    simp at hlen
    omega
  | cons e c ih =>
    intro j pending rest hj hj32 hlen hdesc
    obtain ⟨hts, hdesc'⟩ := descFromAt_cons.mp hdesc
    have hlen' : c.length = j - 1 := by
      simp at hlen; omega
    simp only [List.cons_append, replayWalk, List.append_eq]
    rw [if_neg (fun h => h.2 hts)]
    rw [hts, pred32_of_pos hj hj32]
    by_cases hj1 : j = 1
    · have hc : c = [] := List.length_eq_zero.mp (by omega)
      subst hc
      subst hj1
      simp
    · rw [if_neg (by omega)]
      rw [ih (j - 1) (pending ++ [e]) rest (by omega) (by omega) hlen' hdesc']
      simp

theorem walk_complete_txn (t rest : List JournalEntry) (h : completeTxn t) :
    replayWalk 0 [] (t ++ rest) = t ++ replayWalk 0 [] rest := by
  obtain ⟨hne, h32, hdesc⟩ := h
  cases t with
  | nil => exact absurd rfl hne
  | cons e c =>
    obtain ⟨hts, hdesc'⟩ := descFromAt_cons.mp hdesc
    have hlen : (e :: c).length = c.length + 1 := by simp
    rw [hlen] at h32 hdesc' hts
    simp only [Nat.add_sub_cancel] at hdesc'
    simp only [List.cons_append, replayWalk, List.append_eq]
    rw [if_neg (by simp)]
    rw [hts, pred32_of_pos (by omega) (by omega)]
    simp only [Nat.add_sub_cancel]
    by_cases hc : c = []
    · subst hc
      simp
    · have hcl : c.length ≠ 0 := fun h0 => hc (List.length_eq_zero.mp h0)
      rw [if_neg (by omega)]
      rw [walk_complete_chain c c.length ([] ++ [e]) rest (by omega)
        (by omega) rfl hdesc']
      simp

theorem walk_join (txns : List (List JournalEntry)) (tail : List JournalEntry)
    (h : ∀ t ∈ txns, completeTxn t) :
    replayWalk 0 [] (txns.flatten ++ tail)
      = txns.flatten ++ replayWalk 0 [] tail := by
  induction txns with
  | nil => simp
  | cons t ts ih =>
    have h1 : completeTxn t := h t (by simp)
    have h2 : ∀ u ∈ ts, completeTxn u := fun u hu => h u (by simp [hu])
    simp only [List.flatten_cons, List.append_assoc]
    rw [walk_complete_txn t (ts.flatten ++ tail) h1, ih h2]

theorem walk_all_zero (s : List JournalEntry) (h : ∀ e ∈ s, e.txSize = 0) :
    replayWalk 0 [] s = [] := by
  cases s with
  | nil => rfl
  | cons e s' =>
    have he : e.txSize = 0 := h e (by simp)
    simp only [replayWalk]
    rw [if_neg (by simp), he, pred32_zero, if_neg (by norm_num)]
    cases s' with
    | nil => rfl
    | cons e2 s'' =>
      have he2 : e2.txSize = 0 := h e2 (by simp)
      simp only [replayWalk]
      rw [if_pos ⟨by norm_num, by rw [he2]; norm_num⟩]

theorem walk_open_chain :
    ∀ (c : List JournalEntry) (j : Nat) (pending tail : List JournalEntry),
      j < 4294967296 → c.length + 1 ≤ j → descFromAt j c →
      replayWalk j pending (c ++ tail)
        = replayWalk (j - c.length) (pending ++ c) tail := by
  intro c
  induction c with
  | nil => intro j pending tail _ _ _; simp
  | cons e c ih =>
    intro j pending tail hj32 hlen hdesc
    obtain ⟨hts, hdesc'⟩ := descFromAt_cons.mp hdesc
    have hj2 : c.length + 2 ≤ j := by simp at hlen; omega
    simp only [List.cons_append, replayWalk, List.append_eq]
    rw [if_neg (fun h => h.2 hts)]
    rw [hts, pred32_of_pos (by omega) hj32]
    rw [if_neg (by omega)]
    rw [ih (j - 1) (pending ++ [e]) tail (by omega) (by omega) hdesc']
    have h1 : j - 1 - c.length = j - (e :: c).length := by simp; omega
    rw [h1]
    simp

theorem walk_torn (s : List JournalEntry) (h : TornTail s) :
    replayWalk 0 [] s = [] := by
  obtain ⟨n, hn32, hlen, hdesc⟩ := h
  cases s with
  | nil => rfl
  | cons e c =>
    obtain ⟨hts, hdesc'⟩ := descFromAt_cons.mp hdesc
    have hn2 : c.length + 2 ≤ n := by simp at hlen; omega
    simp only [replayWalk]
    rw [if_neg (by simp), hts, pred32_of_pos (by omega) hn32, if_neg (by omega)]
    have hsplit : replayWalk (n - 1) ([] ++ [e]) (c ++ [])
        = replayWalk (n - 1 - c.length) (([] ++ [e]) ++ c) [] :=
      walk_open_chain c (n - 1) ([] ++ [e]) [] (by omega) (by omega) hdesc'
    rw [List.append_nil] at hsplit
    simp only [List.nil_append] at hsplit ⊢
    rw [hsplit]
    rfl

theorem walk_broken (s : List JournalEntry) (h : BrokenTail s) :
    replayWalk 0 [] s = [] := by
  obtain ⟨n, c0, b, rest, hs, hne, hn32, hlen, hdesc, hb⟩ := h
  subst hs
  cases c0 with
  | nil => exact absurd rfl hne
  | cons e c =>
    obtain ⟨hts, hdesc'⟩ := descFromAt_cons.mp hdesc
    have hn2 : c.length + 2 ≤ n := by simp at hlen; omega
    simp only [List.cons_append, replayWalk, List.append_eq]
    rw [if_neg (by simp), hts, pred32_of_pos (by omega) hn32, if_neg (by omega)]
    rw [walk_open_chain c (n - 1) ([] ++ [e]) (b :: rest) (by omega) (by omega)
      hdesc']
    simp only [replayWalk]
    rw [if_pos]
    constructor
    · omega
    · have : n - 1 - c.length = n - (e :: c).length := by simp; omega
      rw [this]
      exact hb

theorem mset_self {α β : Type} [DecidableEq α] (m : α → Option β) (k : α)
    (v : Option β) : mset m k v k = v := by
  simp [mset]

theorem mset_mset {α β : Type} [DecidableEq α] (m : α → Option β) (k : α)
    (v w : Option β) : mset (mset m k v) k w = mset m k w := by
  funext i
  by_cases h : i = k <;> simp [mset, h]

/-- C6 (amended): per-entry replay is idempotent.  Each destructive replay
step either consumes the staging temporary (so a second run finds it
absent and returns without effect) or finds its target absent or already
holding the entry's values; replaying any single journal entry twice
against any recovery state equals replaying it once. -/
theorem replayEntry_idempotent (st : RecoveryMaps) (e : JournalEntry) :
    replayEntry (replayEntry st e) e = replayEntry st e := by
  cases hty : e.type
  case createObject =>
    cases hs : st.recoveredStaging e.stagingId with
    | none => simp [replayEntry, hty, hs]
    | some s => simp [replayEntry, hty, hs, mset_self]
  case updateObject =>
    cases hs : st.recoveredStaging e.stagingId with
    | none => simp [replayEntry, hty, hs]
    | some s => simp [replayEntry, hty, hs, mset_self]
  case updateXattr =>
    cases hb : st.blobObjects e.objectId with
    | none => simp [replayEntry, hty, hb]
    | some p =>
      cases p with
      | mk x c => simp [replayEntry, hty, hb, mset_self, mset_mset]
  case deleteObject =>
    cases hb : st.blobObjects e.objectId with
    | none => simp [replayEntry, hty, hb]
    | some p => simp [replayEntry, hty, hb, mset_self]
  case createTemporary =>
    cases hs : st.recoveredStaging e.stagingId with
    | none => simp [replayEntry, hty, hs]
    | some s =>
      cases ht : st.recoveredTemporaries e.temporaryId with
      | none => simp [replayEntry, hty, hs, ht, mset_self]
      | some p => simp [replayEntry, hty, hs, ht, mset_self]
  case updateTemporary =>
    cases hs : st.recoveredStaging e.stagingId with
    | none => simp [replayEntry, hty, hs]
    | some s =>
      cases ht : st.recoveredTemporaries e.temporaryId with
      | none => simp [replayEntry, hty, hs, ht, mset_self]
      | some p => simp [replayEntry, hty, hs, ht, mset_self]
  case updateTemporaryXattr =>
    cases ht : st.recoveredTemporaries e.temporaryId with
    | none => simp [replayEntry, hty, ht]
    | some p =>
      cases p with
      | mk x c => simp [replayEntry, hty, ht, mset_self, mset_mset]
  case deleteTemporary =>
    simp [replayEntry, hty, mset_self, mset_mset]

/-- C4: for a journal consisting of complete transactions (contiguous runs
with txSize strictly descending to 1) followed by a garbage tail — any
suffix of all-zero entries, any torn/incomplete descending run, or a run
cut by a break in the descending sequence followed by anything — the
recovery walk replays exactly the entries of the complete transactions, in
order, and discards everything from the break onward. -/
theorem replay_applies_exactly_complete_transactions
    (txns : List (List JournalEntry)) (tail : List JournalEntry)
    (h1 : ∀ t ∈ txns, completeTxn t) (h2 : GarbageSuffix tail) :
    replayedEntries (txns.flatten ++ tail) = txns.flatten := by
  unfold replayedEntries
  rw [walk_join txns tail h1]
  rcases h2 with hz | ht | hb
  · rw [walk_all_zero tail hz, List.append_nil]
  · rw [walk_torn tail ht, List.append_nil]
  · rw [walk_broken tail hb, List.append_nil]

/-- Witness for C4: a one-entry transaction and a two-entry transaction
followed by two zeroed records replay exactly the three transaction
entries. -/
theorem replay_applies_exactly_complete_transactions_witness :
    replayedEntries ([[eA1], [eB2, eB1]].flatten ++ [zeroEntry, zeroEntry])
      = [[eA1], [eB2, eB1]].flatten :=
  replay_applies_exactly_complete_transactions [[eA1], [eB2, eB1]]
    [zeroEntry, zeroEntry] (by decide) (Or.inl (by decide))

/-- C2 (counterexample): a journal consisting of a zeroed record followed
by a well-formed one-entry transaction replays nothing at all, although
that transaction alone would replay; the zeroed head is not skipped. -/
theorem zeroed_head_not_skipped :
    replayedEntries [zeroEntry, eC1] = []
    ∧ replayedEntries [eC1] = [eC1]
    ∧ completeTxn [eC1] := by
  refine ⟨by decide, by decide, by decide⟩

/-- C2 (amended): replay does not skip a zeroed region.  Reading an
all-zero record sets expectedTxSize to `0 - 1 = 2^32 - 1` by unsigned
wraparound, so the very next record — zero or not — breaks the expected
descending chain (unless its txSize is exactly 2^32 - 1) and the walk
halts, replaying nothing; all transactions after a zeroed record are
discarded. -/
theorem replay_halts_after_zero_entry (e1 e2 : JournalEntry)
    (rest : List JournalEntry) (h1 : e1.txSize = 0)
    (h2 : e2.txSize ≠ 4294967295) :
    replayedEntries (e1 :: e2 :: rest) = [] := by
  unfold replayedEntries
  simp only [replayWalk]
  rw [if_neg (by simp), h1, pred32_zero, if_neg (by norm_num),
    if_pos ⟨by norm_num, h2⟩]

/-- Witness for the amended C2: the concrete journal [zero, CreateObject]
replays nothing. -/
theorem replay_halts_after_zero_entry_witness :
    replayedEntries [zeroEntry, eC1] ++ [eC1] = [eC1] := by
  rw [replay_halts_after_zero_entry zeroEntry eC1 [] (by decide) (by decide)]
  rfl

/-- C6 (counterexample): full-journal replay is not idempotent.  Starting
from a state holding blob object 5 and staging temporary 0, replaying the
transaction [DeleteObject 5, CreateObject 5 from staging 0] once leaves
object 5 recreated; replaying the same journal a second time re-executes
the delete (the object exists) but the create finds its staging temporary
already consumed and does nothing, so object 5 is lost. -/
theorem full_replay_not_idempotent :
    (replayJournal st6 j6).blobObjects 5 = some (4, 77)
    ∧ (replayJournal (replayJournal st6 j6) j6).blobObjects 5 = none
    ∧ replayJournal (replayJournal st6 j6) j6 ≠ replayJournal st6 j6 := by
  have h1 : (replayJournal st6 j6).blobObjects 5 = some (4, 77) := by decide
  have h2 : (replayJournal (replayJournal st6 j6) j6).blobObjects 5 = none := by
    decide
  refine ⟨h1, h2, fun h => ?_⟩
  rw [h, h1] at h2
  exact Option.noConfusion h2

/-- C1: every journal entry assembled by Transaction::commit is written
with txSize = 0 — the record is zeroed by memset and txSize is never
assigned before the journal write — and exactly one entry is produced per
non-no-op Locked.  The txSize back-fill of the spec's commit algorithm
(step 3) does not exist in the code, so the entries never carry
N, N-1, ..., 1 and the last entry of a transaction never carries 1. -/
theorem commit_writes_every_txSize_zero (ls : List AnyLocked) (c0 : Nat) :
    (buildEntries ls c0).entries.length
        = (ls.filter (fun l => !l.isNoop)).length
    ∧ (buildEntries ls c0).entries.map (fun e => e.txSize)
        = List.replicate (ls.filter (fun l => !l.isNoop)).length 0 := by
  induction ls generalizing c0 with
  | nil => exact ⟨rfl, rfl⟩
  | cons l ls ih =>
    obtain ⟨ih1, ih2⟩ := ih (c0 + 1)
    have hlen : ((AnyLocked.entry l c0).toList).length
        = if l.isNoop then 0 else 1 := by
      cases l with
      | obj lo =>
        by_cases h : lo.isNoop <;>
          simp [AnyLocked.entry, AnyLocked.isNoop, LockedObj.getJournalEntry, h]
      | temp lt =>
        by_cases h : lt.isNoop <;>
          simp [AnyLocked.entry, AnyLocked.isNoop, LockedTemp.getJournalEntry, h]
    have hmap : ((AnyLocked.entry l c0).toList).map (fun e => e.txSize)
        = List.replicate (if l.isNoop then 0 else 1) 0 := by
      cases l with
      | obj lo =>
        by_cases h : lo.isNoop <;>
          simp [AnyLocked.entry, AnyLocked.isNoop, LockedObj.getJournalEntry, h]
      | temp lt =>
        by_cases h : lt.isNoop <;>
          simp [AnyLocked.entry, AnyLocked.isNoop, LockedTemp.getJournalEntry, h]
    constructor
    · simp only [buildEntries, List.length_append, hlen, ih1, List.filter_cons]
      by_cases h : l.isNoop <;> simp [h] <;> omega
    · simp only [buildEntries, List.map_append, hmap, ih2, List.filter_cons]
      by_cases h : l.isNoop <;> simp [h, List.replicate_succ]

/-- Witness for C1: the single-Locked transaction produces one entry, and
its txSize is 0, not 1. -/
theorem commit_writes_every_txSize_zero_witness :
    (buildEntries demoLs 0).entries.map (fun e => e.txSize) = [0]
    ∧ (0 : Nat) ≠ 1 := by
  refine ⟨?_, by decide⟩
  have h := (commit_writes_every_txSize_zero demoLs 0).2
  simpa [demoLs, lSetXattrOnly, AnyLocked.isNoop, LockedObj.isNoop] using h

/-- C3 (counterexample): the staging id counter does not advance only for
content-bearing Lockeds.  In a commit whose first Locked has no pending
content (a bare setXattr) and whose second stages content, the staged
content is stamped staging id 1, not 0, and the counter advances by 2
although only one piece of content was staged. -/
theorem staging_id_counter_counterexample :
    (buildEntries [.obj lSetXattrOnly, .obj lOverwrite] 0).stamps = [1]
    ∧ (buildEntries [.obj lSetXattrOnly, .obj lOverwrite] 0).counter = 2
    ∧ (buildEntries [.obj lSetXattrOnly, .obj lOverwrite] 0).stamps ≠ [0] := by
  refine ⟨by decide, by decide, by decide⟩

theorem buildEntries_counter (ls : List AnyLocked) (c : Nat) :
    (buildEntries ls c).counter = c + ls.length := by
  induction ls generalizing c with
  | nil => simp [buildEntries]
  | cons l ls ih =>
    simp only [buildEntries, ih (c + 1), List.length_cons]
    omega

theorem buildEntries_stamps_length (ls : List AnyLocked) (c : Nat) :
    (buildEntries ls c).stamps.length
      = (ls.filter (fun x => !x.isNoop && x.hasContent)).length := by
  induction ls generalizing c with
  | nil => rfl
  | cons l ls ih =>
    have hlen : ((AnyLocked.stamp l c).toList).length
        = if !l.isNoop && l.hasContent then 1 else 0 := by
      cases l with
      | obj lo =>
        by_cases h : lo.isNoop <;> by_cases hc : lo.newContent.isSome <;>
          simp [AnyLocked.stamp, AnyLocked.isNoop, AnyLocked.hasContent,
            LockedObj.stamp, h, hc]
      | temp lt =>
        by_cases h : lt.isNoop <;> by_cases hc : lt.newContent.isSome <;>
          simp [AnyLocked.stamp, AnyLocked.isNoop, AnyLocked.hasContent,
            LockedTemp.stamp, h, hc]
    simp only [buildEntries, List.length_append, hlen, ih (c + 1),
      List.filter_cons]
    by_cases h : (!l.isNoop && l.hasContent) <;> simp [h] <;> omega

/-- C3 (amended): a staging id is stamped onto pending content only for a
non-no-op Locked with pending new content, but staging_id_counter is
advanced once per Locked regardless (stagingIdCounter++ is evaluated for
every Locked in the commit loops); consequently the first Locked of a
commit, when it stages content, is stamped with the counter's starting
value — 0 for the first transaction of a fresh journal — and the number of
stamps equals the number of non-no-op content-bearing Lockeds. -/
theorem staging_id_counter_per_locked (l : AnyLocked) (rest : List AnyLocked)
    (c0 : Nat) (h1 : l.isNoop = false) (h2 : l.hasContent = true) :
    (buildEntries (l :: rest) c0).stamps.head? = some c0
    ∧ (∀ ls c, (buildEntries ls c).counter = c + ls.length)
    ∧ (∀ ls c, (buildEntries ls c).stamps.length
        = (ls.filter (fun x => !x.isNoop && x.hasContent)).length) := by
  refine ⟨?_, buildEntries_counter, buildEntries_stamps_length⟩
  have hstamp : AnyLocked.stamp l c0 = some c0 := by
    cases l with
    | obj lo =>
      simp only [AnyLocked.isNoop] at h1
      simp only [AnyLocked.hasContent] at h2
      simp [AnyLocked.stamp, LockedObj.stamp, h1, h2]
    | temp lt =>
      simp only [AnyLocked.isNoop] at h1
      simp only [AnyLocked.hasContent] at h2
      simp [AnyLocked.stamp, LockedTemp.stamp, h1, h2]
  simp [buildEntries, hstamp]

/-- Witness for the amended C3: a fresh journal whose first Locked stages
content stamps it with staging id 0. -/
theorem staging_id_counter_per_locked_witness :
    (buildEntries [AnyLocked.obj lOverwrite] 0).stamps.head? = some 0 :=
  (staging_id_counter_per_locked (.obj lOverwrite) [] 0 (by decide)
    (by decide)).1

/-- C5: for every non-no-op Locked, the journal entry type emitted by
getJournalEntry is exactly the spec's decision table on the final flags:
created (and not removed) gives CreateObject/CreateTemporary; not-created
and removed gives DeleteObject/DeleteTemporary regardless of pending
content; otherwise UpdateObject/UpdateTemporary with pending content and
UpdateXattr/UpdateTemporaryXattr without.  In particular an overwrite
followed by remove emits one DeleteObject entry. -/
theorem journal_entry_type_decision_table (lo : LockedObj) (lt : LockedTemp)
    (s1 s2 : Nat) (h1 : lo.isNoop = false) (h2 : lt.isNoop = false) :
    (lo.getJournalEntry s1).map (fun e => e.type)
        = some (claimedObjectType lo.created lo.removed lo.newContent.isSome)
    ∧ (lt.getJournalEntry s2).map (fun e => e.type)
        = some (claimedTemporaryType lt.created lt.removed lt.newContent.isSome) := by
  constructor
  · have h1' := h1
    simp only [LockedObj.isNoop, Bool.or_eq_false_iff, Bool.and_eq_false_iff] at h1'
    obtain ⟨-, hcr⟩ := h1'
    simp only [LockedObj.getJournalEntry, h1, Bool.false_eq_true, if_false,
      Option.map_some]
    by_cases hc : lo.created <;> by_cases hr : lo.removed <;>
      cases hn : lo.newContent <;>
        simp_all [claimedObjectType]
  · have h2' := h2
    simp only [LockedTemp.isNoop, Bool.or_eq_false_iff, Bool.and_eq_false_iff] at h2'
    obtain ⟨-, hcr⟩ := h2'
    simp only [LockedTemp.getJournalEntry, h2, Bool.false_eq_true, if_false,
      Option.map_some]
    by_cases hc : lt.created <;> by_cases hr : lt.removed <;>
      cases hn : lt.newContent <;>
        simp_all [claimedTemporaryType]

/-- Witness for C5, instantiated at scenario S2 (overwrite then remove on
an existing object, which the table sends to DeleteObject despite the
pending content) and at a consumed temporary (DeleteTemporary). -/
theorem journal_entry_type_decision_table_witness :
    (lOverwriteRemove.getJournalEntry 0).map (fun e => e.type)
        = some (claimedObjectType lOverwriteRemove.created
            lOverwriteRemove.removed lOverwriteRemove.newContent.isSome)
    ∧ (tConsume.getJournalEntry 1).map (fun e => e.type)
        = some (claimedTemporaryType tConsume.created tConsume.removed
            tConsume.newContent.isSome) :=
  journal_entry_type_decision_table lOverwriteRemove tConsume 0 1
    (by decide) (by decide)

/-- C7 (counterexample): generation is not always advanced by the Locked's
change count.  A created-and-removed Locked with changeCount 1 is a no-op:
LockedObject::commit returns before calling update, so the handle's
generation stays 5 instead of becoming 6. -/
theorem generation_unchanged_for_noop_locked :
    (lCreateRemove.commitUpdate oDemo).generation = 5
    ∧ oDemo.generation + lCreateRemove.changeCount = 6
    ∧ (lCreateRemove.commitUpdate oDemo).generation
        ≠ oDemo.generation + lCreateRemove.changeCount := by
  refine ⟨by decide, by decide, by decide⟩

/-- C7 (amended): when a transaction is accepted, every handle locked via
a non-no-op Locked with change count c has its generation advanced by
exactly c; a no-op Locked (changeCount 0, or created and removed) leaves
the handle completely unchanged; and in all cases the generation never
decreases.  This holds for Object and RecoverableTemporary handles alike. -/
theorem generation_advances_by_change_count (l : LockedObj) (o : ObjState)
    (t : LockedTemp) (s : TempState) :
    (l.isNoop = false →
      (l.commitUpdate o).generation = o.generation + l.changeCount)
    ∧ (l.isNoop = true → l.commitUpdate o = o)
    ∧ o.generation ≤ (l.commitUpdate o).generation
    ∧ (t.isNoop = false →
      (t.commitUpdate s).generation = s.generation + t.changeCount)
    ∧ (t.isNoop = true → t.commitUpdate s = s)
    ∧ s.generation ≤ (t.commitUpdate s).generation := by
  refine ⟨fun h => ?_, fun h => ?_, ?_, fun h => ?_, fun h => ?_, ?_⟩
  · simp [LockedObj.commitUpdate, ObjState.update, h]
  · simp [LockedObj.commitUpdate, h]
  · by_cases h : l.isNoop <;>
      simp [LockedObj.commitUpdate, ObjState.update, h]
  · simp [LockedTemp.commitUpdate, TempState.update, h]
  · simp [LockedTemp.commitUpdate, h]
  · by_cases h : t.isNoop <;>
      simp [LockedTemp.commitUpdate, TempState.update, h]

/-- Witness for the amended C7: an overwrite Locked with changeCount 1
advances the handle generation from 10 to 11. -/
theorem generation_advances_by_change_count_witness :
    (lOverwrite.commitUpdate oDemo2).generation
      = oDemo2.generation + lOverwrite.changeCount :=
  (generation_advances_by_change_count lOverwrite oDemo2 tConsume tsDemo).1
    (by decide)

/-- C8: a no-op Locked (changeCount 0, or created and removed) contributes
nothing: getJournalEntry emits no journal record, commit performs no
blob-layer apply step, and the wrapped handle's cached state and
generation are left unchanged — for LockedObject and LockedTemporary
alike. -/
theorem noop_locked_contributes_nothing (l : LockedObj) (t : LockedTemp)
    (s1 s2 : Nat) (o : ObjState) (s : TempState)
    (h1 : l.isNoop = true) (h2 : t.isNoop = true) :
    l.getJournalEntry s1 = none
    ∧ l.applyStep = none
    ∧ l.commitUpdate o = o
    ∧ t.getJournalEntry s2 = none
    ∧ t.applyStep = none
    ∧ t.commitUpdate s = s := by
  refine ⟨?_, ?_, ?_, ?_, ?_, ?_⟩ <;>
    simp [LockedObj.getJournalEntry, LockedObj.applyStep, LockedObj.commitUpdate,
      LockedTemp.getJournalEntry, LockedTemp.applyStep, LockedTemp.commitUpdate,
      h1, h2]

/-- Witness for C8: a changeCount-0 LockedObject and a created-and-removed
LockedTemporary both contribute nothing. -/
theorem noop_locked_contributes_nothing_witness :
    lNoChange.getJournalEntry 0 = none
    ∧ lNoChange.applyStep = none
    ∧ lNoChange.commitUpdate oDemo2 = oDemo2
    ∧ tCreateRemove.getJournalEntry 1 = none
    ∧ tCreateRemove.applyStep = none
    ∧ tCreateRemove.commitUpdate tsDemo = tsDemo :=
  noop_locked_contributes_nothing lNoChange tCreateRemove 0 1 oDemo2 tsDemo
    (by decide) (by decide)

/-- C9: wrapping a handle into a transaction fails with the conflict error
exactly when the handle is already locked, and in that case the handle is
left unchanged; a successful wrap sets the locked flag; dropping the
Locked (the destructor, also on abort) resets locked to false, after
which the handle can be wrapped again.  This holds for Object and
RecoverableTemporary handles alike. -/
theorem wrap_conflict_protocol (o : ObjState) (t : TempState) :
    (exceptOk (o.lockAttempt).2 = false ↔ o.locked = true)
    ∧ (o.locked = true → (o.lockAttempt).1 = o
        ∧ (o.lockAttempt).2 = Except.error "transaction aborted due to conflict")
    ∧ (o.locked = false → ((o.lockAttempt).1).locked = true)
    ∧ ((o.lockAttempt).1.unlock).locked = false
    ∧ exceptOk (((o.lockAttempt).1.unlock).lockAttempt).2 = true
    ∧ (exceptOk (t.lockAttempt).2 = false ↔ t.locked = true)
    ∧ (t.locked = true → (t.lockAttempt).1 = t
        ∧ (t.lockAttempt).2 = Except.error "transaction aborted due to conflict")
    ∧ (t.locked = false → ((t.lockAttempt).1).locked = true)
    ∧ ((t.lockAttempt).1.unlock).locked = false
    ∧ exceptOk (((t.lockAttempt).1.unlock).lockAttempt).2 = true := by
  by_cases ho : o.locked <;> by_cases ht : t.locked <;>
    simp [ObjState.lockAttempt, ObjState.unlock, TempState.lockAttempt,
      TempState.unlock, exceptOk, ho, ht]

/-- Witness for C9: wrapping an already-locked handle reports the conflict
error and leaves the handle unchanged. -/
theorem wrap_conflict_protocol_witness :
    (oLockedW.lockAttempt).1 = oLockedW
    ∧ (oLockedW.lockAttempt).2
        = Except.error "transaction aborted due to conflict" :=
  (wrap_conflict_protocol oLockedW tUnlockedW).2.1 rfl

/-- C10: once Recovery::finish() has succeeded, every subsequent call to
getObject, recoverTemporaries, commitSavedTransaction, or finish itself
fails with the precondition error (already called finish) instead of
operating on the cleared recovery state. -/
theorem finish_guards_later_calls (r r' : RecoveryLayer) (id ty : Nat)
    (es : List JournalEntry) (h : r.finish = Except.ok r') :
    r'.getObject id = Except.error "already called finish()"
    ∧ r'.recoverTemporaries ty = Except.error "already called finish()"
    ∧ r'.commitSavedTransaction es = Except.error "already called finish()"
    ∧ r'.finish = Except.error "already called finish()" := by
  have hf : r'.finished = true := by
    unfold RecoveryLayer.finish at h
    by_cases hr : r.finished
    · simp [hr] at h
    · rw [if_neg hr] at h
      simp only [Except.ok.injEq] at h
      rw [← h]
  simp [RecoveryLayer.getObject, RecoveryLayer.recoverTemporaries,
    RecoveryLayer.commitSavedTransaction, RecoveryLayer.finish, hf]

/-- Witness for C10: finishing a fresh recovery and calling each operation
again yields the precondition error. -/
theorem finish_guards_later_calls_witness :
    rDone.getObject 0 = Except.error "already called finish()"
    ∧ rDone.recoverTemporaries 0 = Except.error "already called finish()"
    ∧ rDone.commitSavedTransaction [] = Except.error "already called finish()"
    ∧ rDone.finish = Except.error "already called finish()" :=
  finish_guards_later_calls rStart rDone 0 0 [] rfl
